import Mathlib

/-!
Verification development for the incremental NetCDF-to-SQLite ETL pipeline.

Shallow embedding of the repository code:
  - `extract_profile`, `transform_data`, `save_to_csv`, the consolidation
    loop of `main` in datasetconversion/scripts/etl.py;
  - `insert_data_from_csv` in datasetconversion/scripts/db_conversion.py;
  - `run_etl_and_load`, `fetch_and_update_job`, the scheduler configuration
    of `run_scheduler` in backend/app.py.

Numeric measurement values are carried through unchanged by the pipeline
(no arithmetic is ever performed on them), so they are embedded as
`Option Int` (`none` = a masked or missing value).  A NetCDF variable that
is absent from a file is `none` at the variable level.
-/

/-- One NetCDF profile-archive file, as seen through the netCDF4 reads the
pipeline performs.  `openError` models `nc.Dataset(file_path)` raising for
this file; `readErrors` models per-profile read errors raised while
indexing variables inside `extract_profile` (the spec: a profile that
raises a read error).  Scalar variables are per-profile 1D arrays; the six
measurement variables are profile-by-level 2D arrays. -/
structure NCFile where
  name : String
  openError : Bool
  readErrors : List Nat
  juld : Option (List (Option Int))
  latitude : Option (List (Option Int))
  longitude : Option (List (Option Int))
  pres : Option (List (List (Option Int)))
  temp : Option (List (List (Option Int)))
  psal : Option (List (List (Option Int)))
  presAdj : Option (List (List (Option Int)))
  tempAdj : Option (List (List (Option Int)))
  psalAdj : Option (List (List (Option Int)))
deriving DecidableEq

/-- The dict built by `extract_profile` (etl.py lines 10-27): scalar
values for JULD/LATITUDE/LONGITUDE (`None` when the variable is absent,
embedded as `none`), the six flattened per-level arrays (`[]` when the
variable is absent), and the N_PROF / N_LEVELS index lists. -/
structure ProfileData where
  juld : Option Int
  latitude : Option Int
  longitude : Option Int
  pres : List (Option Int)
  temp : List (Option Int)
  psal : List (Option Int)
  presAdj : List (Option Int)
  tempAdj : List (Option Int)
  psalAdj : List (Option Int)
  nProf : List Nat
  nLevels : List Nat
deriving DecidableEq

/-- One row of the DataFrame built by `transform_data` (etl.py lines
32-47); SOURCE_FILE is not yet attached at this point. -/
structure ProfRow where
  n_prof : Nat
  n_levels : Nat
  juld : Option Int
  latitude : Option Int
  longitude : Option Int
  pres : Option Int
  temp : Option Int
  psal : Option Int
  pres_adjusted : Option Int
  temp_adjusted : Option Int
  psal_adjusted : Option Int
deriving DecidableEq

/-- One row of the consolidation accumulation CSV (and of the `profiles`
table): a transformed row stamped with its SOURCE_FILE
(the assignment df[SOURCE_FILE] = file_path.name, etl.py line 120). -/
structure Row extends ProfRow where
  source_file : String
deriving DecidableEq

/-- Model of one indexed read of a scalar (1D) variable: an absent
variable yields the Python value `None` (etl.py line 16); a present
variable indexed out of range raises, which makes `extract_profile`
return `none`. -/
def scalarVar (v : Option (List (Option Int))) (idx : Nat) : Option (Option Int) :=
  match v with
  | none => some none
  | some arr => arr[idx]?

/-- Model of one indexed and flattened read of a 2D variable: an
absent variable yields `[]` (etl.py line 22); a present variable indexed
out of range raises. -/
def arrayVar (v : Option (List (List (Option Int)))) (idx : Nat) : Option (List (Option Int)) :=
  match v with
  | none => some []
  | some m => m[idx]?

/-- etl.py lines 6-30, `extract_profile`.  Returns `none` when the `try`
block raises (file open failure, a per-profile read error, or an
out-of-range index), mirroring the `except` that prints and returns
`None`.  Note etl.py line 24: the PRES entry of the dict is never
Python `None` (it is `[]` when PRES is absent), so the level count is
the length of the PRES entry. -/
def extract_profile (f : NCFile) (idx : Nat) : Option ProfileData :=
  if f.openError = true ∨ idx ∈ f.readErrors then none else
  match scalarVar f.juld idx with
  | none => none
  | some juld =>
  match scalarVar f.latitude idx with
  | none => none
  | some lat =>
  match scalarVar f.longitude idx with
  | none => none
  | some lon =>
  match arrayVar f.pres idx with
  | none => none
  | some pres =>
  match arrayVar f.temp idx with
  | none => none
  | some temp =>
  match arrayVar f.psal idx with
  | none => none
  | some psal =>
  match arrayVar f.presAdj idx with
  | none => none
  | some presAdj =>
  match arrayVar f.tempAdj idx with
  | none => none
  | some tempAdj =>
  match arrayVar f.psalAdj idx with
  | none => none
  | some psalAdj =>
  some { juld := juld, latitude := lat, longitude := lon,
         pres := pres, temp := temp, psal := psal,
         presAdj := presAdj, tempAdj := tempAdj, psalAdj := psalAdj,
         nProf := List.replicate pres.length idx,
         nLevels := List.range pres.length }

/-- etl.py lines 32-47, `transform_data`.  `pd.DataFrame` raises
`ValueError` when the column arrays have unequal lengths; the scalar
columns are broadcast with `[value] * n` and always have length
`n`, the length of the N_LEVELS column. -/
def transform_data (d : ProfileData) : Option (List ProfRow) :=
  let n := d.nLevels.length
  if d.nProf.length = n ∧ d.pres.length = n ∧ d.temp.length = n ∧ d.psal.length = n
      ∧ d.presAdj.length = n ∧ d.tempAdj.length = n ∧ d.psalAdj.length = n then
    some ((List.range n).map (fun i =>
      { n_prof := d.nProf.getD i 0
        n_levels := d.nLevels.getD i 0
        juld := d.juld
        latitude := d.latitude
        longitude := d.longitude
        pres := d.pres.getD i none
        temp := d.temp.getD i none
        psal := d.psal.getD i none
        pres_adjusted := d.presAdj.getD i none
        temp_adjusted := d.tempAdj.getD i none
        psal_adjusted := d.psalAdj.getD i none }))
  else none

/-- Stamping of the SOURCE_FILE column, etl.py line 120. -/
def addSourceFile (rows : List ProfRow) (name : String) : List Row :=
  rows.map (fun r => { toProfRow := r, source_file := name })

/-- etl.py lines 49-61, `save_to_csv`, acting on the CSV state
(`none` = the file does not exist).  An empty DataFrame is not written;
with `append_mode` and an existing file the rows are appended, otherwise
the file is (re)created from the DataFrame alone. -/
def save_to_csv (df : List Row) (csv : Option (List Row)) (append_mode : Bool) :
    Option (List Row) :=
  if df.isEmpty then csv
  else
    match append_mode, csv with
    | true, some rows => some (rows ++ df)
    | _, _ => some df

/-- etl.py lines 103-112: the number of profiles, from the JULD shape or,
when JULD is absent, the leading dimension of the first available 2D
variable in the order PRES, TEMP, PSAL, PRES_ADJUSTED, TEMP_ADJUSTED,
PSAL_ADJUSTED; zero when none is available. -/
def detect_n_prof (f : NCFile) : Nat :=
  match f.juld with
  | some arr => arr.length
  | none =>
    match f.pres with
    | some m => m.length
    | none =>
      match f.temp with
      | some m => m.length
      | none =>
        match f.psal with
        | some m => m.length
        | none =>
          match f.presAdj with
          | some m => m.length
          | none =>
            match f.tempAdj with
            | some m => m.length
            | none =>
              match f.psalAdj with
              | some m => m.length
              | none => 0

/-- etl.py lines 115-124: the per-profile loop of `main` for one file,
threading the consolidated CSV state.  A profile whose extraction returns
`None` is skipped (warning logged); a raise inside `transform_data`
escapes to the per-file `except` (etl.py line 125), aborting the
remaining profiles of this file while keeping what was already appended. -/
def process_profiles (f : NCFile) : List Nat → Option (List Row) → Option (List Row)
  | [], csv => csv
  | i :: rest, csv =>
    match extract_profile f i with
    | none => process_profiles f rest csv
    | some d =>
      match transform_data d with
      | none => csv
      | some rows => process_profiles f rest (save_to_csv (addSourceFile rows f.name) csv true)

/-- etl.py lines 99-126: processing of one file inside the batch loop.
A file whose open (etl.py line 102) raises is logged and skipped and the
CSV state is unchanged. -/
def process_file (f : NCFile) (csv : Option (List Row)) : Option (List Row) :=
  if f.openError then csv
  else process_profiles f (List.range (detect_n_prof f)) csv

/-- etl.py lines 86-94: the set of SOURCE_FILE values already present in
the consolidated CSV (empty when the file does not exist). -/
def processed_files : Option (List Row) → List String
  | none => []
  | some rows => (rows.map Row.source_file).dedup

/-- etl.py line 96: `new_files = [f for f in netcdf_files if f.name not in processed_files]`. -/
def etl_new_files (raw : List NCFile) (csv : Option (List Row)) : List NCFile :=
  raw.filter (fun f => ¬ f.name ∈ processed_files csv)

/-- etl.py lines 63-128, `main` (the Consolidator): compute the already
processed set, filter the candidate files, and run the per-file loop over
the new files, threading the consolidated CSV state. -/
def etl_main (raw : List NCFile) (csv : Option (List Row)) : Option (List Row) :=
  (etl_new_files raw csv).foldl (fun c f => process_file f c) csv

set_option linter.unusedVariables false in
/-- db_conversion.py lines 40-116, `insert_data_from_csv` (the Loader),
acting on the CSV state and the `profiles` table contents.  When the CSV
does not exist the function returns after a warning.  The dedup block
(lines 74-90) computes `new_sources` and returns early when it is empty;
otherwise it computes `df_new` — which the source never uses: line 105
appends the full `df` read from the CSV.  All twelve expected columns are
always present in this embedding, so `df = df[keep]` is the identity. -/
def insert_data_from_csv (csv : Option (List Row)) (db : List Row) : List Row :=
  match csv with
  | none => db
  | some df =>
    let csv_sources := (df.map Row.source_file).dedup
    let db_sources := (db.map Row.source_file).dedup
    let new_sources := csv_sources.filter (fun s => ¬ s ∈ db_sources)
    if new_sources.isEmpty then db
    else
      let df_new := df.filter (fun r => r.source_file ∈ new_sources)
      db ++ df

/-- Fault injection for the job model: `etlCrashes` models the ETL
subprocess exiting nonzero (an uncaught exception before it writes);
`lockTimeout` models sqlite raising while `insert_data_from_csv` opens the
store and sets WAL mode (db_conversion.py lines 54-56, outside its
`try`), which escapes the script and makes it exit nonzero;
`insertFails` models `df.to_sql` or `conn.commit` raising inside the
`try` (db_conversion.py lines 105-106): the `except` logs it and the
script still exits 0, the open transaction being rolled back. -/
structure FaultModel where
  etlCrashes : Bool
  lockTimeout : Bool
  insertFails : Bool
deriving DecidableEq

/-- The durable state the job acts on: the raw NetCDF input directory,
the consolidated CSV (`none` = absent) and the `profiles` table rows. -/
structure JobState where
  rawFiles : List NCFile
  csv : Option (List Row)
  db : List Row
deriving DecidableEq

/-- One run of the db_conversion.py script as a subprocess: exit code and
resulting table contents.  A lock timeout at connection setup escapes to
a traceback and a nonzero exit; an insert failure is caught by the
`except` at line 113, leaves the table unchanged (nothing committed) and
the script exits 0.  Otherwise the script performs
`insert_data_from_csv`.  (`create_database` only issues
CREATE TABLE IF NOT EXISTS, a no-op on the row contents.) -/
def db_conversion_run (csv : Option (List Row)) (db : List Row) (fm : FaultModel) :
    Nat × List Row :=
  if fm.lockTimeout then (1, db)
  else if fm.insertFails then (0, db)
  else (0, insert_data_from_csv csv db)

/-- The outcome of `run_etl_and_load`: the resulting durable state,
whether an exception escaped (a RuntimeError on a nonzero stage exit
code), and whether the cleanup sweep ran. -/
structure JobRun where
  state : JobState
  failed : Bool
  cleanupRan : Bool
deriving DecidableEq

/-- backend/app.py lines 61-124, `run_etl_and_load`: inspect (read-only,
exit code unchecked), then the ETL subprocess (nonzero exit raises,
line 91), a fixed delay, the DB load subprocess (nonzero exit raises,
line 108), then the cleanup sweep deleting every raw `*.nc` file, each
deletion failure only logged. -/
def run_etl_and_load (s : JobState) (fm : FaultModel) : JobRun :=
  if fm.etlCrashes then { state := s, failed := true, cleanupRan := false }
  else
    let s1 : JobState := { s with csv := etl_main s.rawFiles s.csv }
    let r := db_conversion_run s1.csv s1.db fm
    let s2 : JobState := { s1 with db := r.2 }
    if r.1 ≠ 0 then { state := s2, failed := true, cleanupRan := false }
    else { state := { s2 with rawFiles := [] }, failed := false, cleanupRan := true }

/-- backend/app.py lines 127-135, `fetch_and_update_job`: run the job,
and when an exception escapes append a timestamped line to the
persistent errors.log.  Returns (state, errors.log, cleanupRan); the
error log is a list of (timestamp, message) lines and `now` is the
current time. -/
def fetch_and_update_job (s : JobState) (errLog : List (Nat × String)) (now : Nat)
    (fm : FaultModel) : JobState × List (Nat × String) × Bool :=
  let jr := run_etl_and_load s fm
  if jr.failed then (jr.state, errLog ++ [(now, "Job failed")], jr.cleanupRan)
  else (jr.state, errLog, jr.cleanupRan)

/-- The fault-free job: both subprocesses succeed. -/
def noFaults : FaultModel := { etlCrashes := false, lockTimeout := false, insertFails := false }

/-- One fault-free pipeline run (ETL, load, cleanup) on the durable
state: the state left by `run_etl_and_load` without fault injection. -/
def pipeline_run (s : JobState) : JobState :=
  (run_etl_and_load s noFaults).state

/-- The scheduler configuration passed to `scheduler.add_job` in
backend/app.py lines 140-149. -/
structure SchedulerConfig where
  maxInstances : Nat
  coalesce : Bool
  misfireGraceTime : Nat
deriving DecidableEq

/-- backend/app.py lines 140-149: `max_instances=1, coalesce=True,
misfire_grace_time=300`. -/
def appSchedulerConfig : SchedulerConfig :=
  { maxInstances := 1, coalesce := true, misfireGraceTime := 300 }

/-- Modelled from the spec: the run loop that enforces the
single-instance policy lives in the third-party APScheduler library, not
in this repository; section 4.5 of the spec describes it as a state
machine whose trigger, when a job is already running, is coalesced into
a no-op (skipped, not queued).  The state counts the currently running
job instances and the total number of executions started. -/
structure SchedState where
  runningJobs : Nat
  executions : Nat
deriving DecidableEq

/-- Modelled from the spec: one timer fire.  A new job instance starts
only when fewer than `cfg.maxInstances` instances are running; otherwise
the trigger is skipped, not queued. -/
def sched_tick (cfg : SchedulerConfig) (s : SchedState) : SchedState :=
  if s.runningJobs < cfg.maxInstances then
    { runningJobs := s.runningJobs + 1, executions := s.executions + 1 }
  else s

/-- Modelled from the spec: a running job instance completes. -/
def job_finish (s : SchedState) : SchedState :=
  { s with runningJobs := s.runningJobs - 1 }

/-- Log levels of the Python logging calls in etl.py `main`. -/
inductive LogLevel where
  | info
  | warning
  | error
deriving DecidableEq

/-- One line of the etl.log stream. -/
structure LogEvent where
  level : LogLevel
  msg : String
deriving DecidableEq

/-- The logging calls issued by the per-profile loop of etl.py `main`
(lines 115-126) for one file: a warning for each profile whose
extraction returned `None` (line 124), and an error when the transform
raises and the per-file `except` fires (line 126), which also ends the
loop for this file. -/
def profileLogEvents (f : NCFile) : List Nat → List LogEvent
  | [] => []
  | i :: rest =>
    match extract_profile f i with
    | none =>
      { level := LogLevel.warning, msg := "Skipping profile " ++ toString i }
        :: profileLogEvents f rest
    | some d =>
      match transform_data d with
      | none => [{ level := LogLevel.error, msg := "Failed to process " ++ f.name }]
      | some _ => profileLogEvents f rest

/-- The logging calls issued by etl.py `main` (lines 100-126) while
processing one file: the per-file info line, then either the error from
a failed open, or the profile-count info line followed by the
per-profile events. -/
def fileLogEvents (f : NCFile) : List LogEvent :=
  { level := LogLevel.info, msg := "Processing file: " ++ f.name } ::
  if f.openError then [{ level := LogLevel.error, msg := "Failed to process " ++ f.name }]
  else
    { level := LogLevel.info, msg := "Profiles detected: " ++ toString (detect_n_prof f) }
      :: profileLogEvents f (List.range (detect_n_prof f))

/-- The rows one file contributes to the consolidated CSV during a batch
run: per profile index in order, the stamped transformed rows, stopping
at the first transform failure (which aborts this file), skipping
profiles whose extraction failed; nothing when the file open fails. -/
def profilesRowsList (f : NCFile) : List Nat → List Row
  | [] => []
  | i :: rest =>
    match extract_profile f i with
    | none => profilesRowsList f rest
    | some d =>
      match transform_data d with
      | none => []
      | some rows => addSourceFile rows f.name ++ profilesRowsList f rest

/-- The rows one file contributes to the consolidated CSV. -/
def fileRows (f : NCFile) : List Row :=
  if f.openError then [] else profilesRowsList f (List.range (detect_n_prof f))

/-- The rows of a CSV state carrying a given SOURCE_FILE value. -/
def sourceRows (F : String) (csv : Option (List Row)) : List Row :=
  (csv.getD []).filter (fun r => r.source_file = F)

/-- Test fixture: a healthy one-profile file with two levels. -/
def fileA : NCFile :=
  { name := "A.bin", openError := false, readErrors := []
    juld := some [some 100], latitude := some [some 5], longitude := some [some 6]
    pres := some [[some 1, some 2]], temp := some [[some 7, some 8]]
    psal := some [[some 9, some 10]], presAdj := some [[some 1, some 2]]
    tempAdj := some [[some 7, some 8]], psalAdj := some [[some 9, some 10]] }

/-- Test fixture: a file whose open raises. -/
def fileB : NCFile :=
  { name := "B.bin", openError := true, readErrors := []
    juld := some [some 200], latitude := some [some 5], longitude := some [some 6]
    pres := some [[some 3]], temp := some [[some 4]]
    psal := some [[some 5]], presAdj := some [[some 3]]
    tempAdj := some [[some 4]], psalAdj := some [[some 5]] }

/-- Test fixture: a healthy one-profile file with one level. -/
def fileC : NCFile :=
  { name := "C.bin", openError := false, readErrors := []
    juld := some [some 300], latitude := some [some 7], longitude := some [some 8]
    pres := some [[some 11]], temp := some [[some 12]]
    psal := some [[some 13]], presAdj := some [[some 11]]
    tempAdj := some [[some 12]], psalAdj := some [[some 13]] }

/-- Test fixture: a file with no JULD and no 2D measurement variable. -/
def fileEmpty : NCFile :=
  { name := "E.bin", openError := false, readErrors := []
    juld := none, latitude := none, longitude := none
    pres := none, temp := none, psal := none
    presAdj := none, tempAdj := none, psalAdj := none }

/-- Test fixture: two profiles; profile 0 has a TEMP array shorter than
its PRES array, so its row construction raises; profile 1 is healthy. -/
def fileMix : NCFile :=
  { name := "M.bin", openError := false, readErrors := []
    juld := some [some 400, some 401], latitude := some [some 1, some 2]
    longitude := some [some 3, some 4]
    pres := some [[some 20], [some 21]], temp := some [[], [some 22]]
    psal := some [[some 23], [some 24]], presAdj := some [[some 20], [some 21]]
    tempAdj := some [[some 25], [some 26]], psalAdj := some [[some 27], [some 28]] }

/-- Test fixture: a row already loaded for A.bin. -/
def rowA : Row :=
  { n_prof := 0, n_levels := 0, juld := some 100, latitude := some 5, longitude := some 6
    pres := some 1, temp := some 7, psal := some 9, pres_adjusted := some 1
    temp_adjusted := some 7, psal_adjusted := some 9, source_file := "A.bin" }

/-- Test fixture: a consolidated row for C.bin. -/
def rowC : Row :=
  { n_prof := 0, n_levels := 0, juld := some 300, latitude := some 7, longitude := some 8
    pres := some 11, temp := some 12, psal := some 13, pres_adjusted := some 11
    temp_adjusted := some 12, psal_adjusted := some 13, source_file := "C.bin" }

example : detect_n_prof fileA = 1 := by decide
example : (fileRows fileA).length = 2 := by decide
example : fileRows fileB = [] := by decide
example : (fileRows fileC).length = 1 := by decide
example : fileRows fileEmpty = [] := by decide
example : fileRows fileMix = [] := by decide
example : (profilesRowsList fileMix [1]).length = 1 := by decide
example : (etl_main [fileA, fileB, fileC] none).isSome := by decide
example : insert_data_from_csv (some [rowA, rowC]) [rowA] = [rowA, rowA, rowC] := by decide
example : (fetch_and_update_job { rawFiles := [], csv := some [rowC], db := [] } [] 0
    { etlCrashes := false, lockTimeout := false, insertFails := true }).2.2 = true := by decide

/-- The pressure array of profile `i` of file `f` (empty when PRES is
absent), i.e. what `extract_profile` flattens for a successful read. -/
def presRow (f : NCFile) (i : Nat) : List (Option Int) :=
  match f.pres with
  | none => []
  | some m => m.getD i []

theorem save_to_csv_append (df rows : List Row) :
    save_to_csv df (some rows) true = some (rows ++ df) := by
  unfold save_to_csv
  by_cases h : df.isEmpty
  · simp [h, List.isEmpty_iff.mp h]
  · simp [h]

theorem process_profiles_some (f : NCFile) (idxs : List Nat) (acc : List Row) :
    process_profiles f idxs (some acc) = some (acc ++ profilesRowsList f idxs) := by
  induction idxs generalizing acc with
  | nil => simp [process_profiles, profilesRowsList]
  | cons i rest ih =>
    unfold process_profiles profilesRowsList
    cases hx : extract_profile f i with
    | none => simpa [hx] using ih acc
    | some d =>
      cases ht : transform_data d with
      | none => simp [hx, ht]
      | some rows =>
        simp only [hx, ht, save_to_csv_append, ih, List.append_assoc]

theorem process_file_some (f : NCFile) (acc : List Row) :
    process_file f (some acc) = some (acc ++ fileRows f) := by
  unfold process_file fileRows
  by_cases h : f.openError
  · simp [h]
  · simp [h, process_profiles_some]

theorem foldl_process_some (fs : List NCFile) (acc : List Row) :
    fs.foldl (fun c f => process_file f c) (some acc) = some (acc ++ fs.flatMap fileRows) := by
  induction fs generalizing acc with
  | nil => simp
  | cons f rest ih =>
    simp only [List.foldl_cons, process_file_some, ih, List.flatMap_cons, List.append_assoc]

/-- Normal form of a Consolidator run on an existing accumulation: the
old rows followed by the contributions of the new files, in order. -/
theorem etl_main_some (raw : List NCFile) (rows : List Row) :
    etl_main raw (some rows) =
      some (rows ++ (etl_new_files raw (some rows)).flatMap fileRows) := by
  unfold etl_main
  exact foldl_process_some _ rows

theorem mem_addSourceFile_source {r : Row} {rows : List ProfRow} {name : String}
    (h : r ∈ addSourceFile rows name) : r.source_file = name := by
  unfold addSourceFile at h
  obtain ⟨p, _, rfl⟩ := List.mem_map.mp h
  rfl

theorem mem_profilesRowsList_source {r : Row} {f : NCFile} {idxs : List Nat}
    (h : r ∈ profilesRowsList f idxs) : r.source_file = f.name := by
  induction idxs with
  | nil => simp [profilesRowsList] at h
  | cons i rest ih =>
    unfold profilesRowsList at h
    cases hx : extract_profile f i with
    | none =>
      simp only [hx] at h
      exact ih h
    | some d =>
      simp only [hx] at h
      cases ht : transform_data d with
      | none =>
        simp only [ht] at h
        simp at h
      | some rows =>
        simp only [ht] at h
        rcases List.mem_append.mp h with h | h
        · exact mem_addSourceFile_source h
        · exact ih h

theorem mem_fileRows_source {r : Row} {f : NCFile} (h : r ∈ fileRows f) :
    r.source_file = f.name := by
  unfold fileRows at h
  by_cases ho : f.openError
  · simp [ho] at h
  · rw [if_neg ho] at h
    exact mem_profilesRowsList_source h

theorem mem_flatMap_fileRows_source {r : Row} {fs : List NCFile}
    (h : r ∈ fs.flatMap fileRows) : ∃ f, f ∈ fs ∧ r.source_file = f.name := by
  obtain ⟨f, hf, hr⟩ := List.mem_flatMap.mp h
  exact ⟨f, hf, mem_fileRows_source hr⟩

/-- Every file selected by the `new_files` filter has a name outside the
already processed set. -/
theorem mem_etl_new_files {f : NCFile} {raw : List NCFile} {csv : Option (List Row)}
    (h : f ∈ etl_new_files raw csv) : f ∈ raw ∧ ¬ f.name ∈ processed_files csv := by
  unfold etl_new_files at h
  have := List.of_mem_filter h
  exact ⟨List.mem_of_mem_filter h, by simpa using this⟩

/-- When every SOURCE_FILE of the accumulation is already present in the
store, the Loader returns without writing (db_conversion.py lines 87-90). -/
theorem insert_data_from_csv_subset (df db : List Row)
    (h : ∀ r ∈ df, r.source_file ∈ db.map Row.source_file) :
    insert_data_from_csv (some df) db = db := by
  have hempty : ((df.map Row.source_file).dedup.filter
      (fun s => decide (¬ s ∈ (db.map Row.source_file).dedup))) = [] := by
    rw [List.filter_eq_nil_iff]
    intro s hs
    obtain ⟨r, hr, rfl⟩ := List.mem_map.mp (List.mem_dedup.mp hs)
    simp [List.mem_dedup.mpr (h r hr)]
  simp only [insert_data_from_csv]
  rw [hempty]
  rfl

/-- Loading the same accumulation twice in a row leaves the store as
after the first load. -/
theorem insert_data_from_csv_idem (csv : Option (List Row)) (db : List Row) :
    insert_data_from_csv csv (insert_data_from_csv csv db) =
      insert_data_from_csv csv db := by
  cases csv with
  | none => rfl
  | some df =>
    by_cases hemp : ((df.map Row.source_file).dedup.filter
        (fun s => decide (¬ s ∈ (db.map Row.source_file).dedup))).isEmpty = true
    · have h1 : insert_data_from_csv (some df) db = db := by
        simp only [insert_data_from_csv]
        rw [if_pos hemp]
      rw [h1]
      exact h1
    · have h1 : insert_data_from_csv (some df) db = db ++ df := by
        simp only [insert_data_from_csv]
        rw [if_neg hemp]
      rw [h1]
      apply insert_data_from_csv_subset
      intro r hr
      exact List.mem_map.mpr ⟨r, List.mem_append_right db hr, rfl⟩

theorem arrayVar_pres_eq {f : NCFile} {i : Nat} {xs : List (Option Int)}
    (h : arrayVar f.pres i = some xs) : xs = presRow f i := by
  unfold arrayVar at h
  unfold presRow
  cases hv : f.pres with
  | none =>
    simp only [hv] at h ⊢
    exact (Option.some.inj h).symm
  | some m =>
    simp only [hv] at h ⊢
    rw [List.getD_eq_getElem?_getD, h]
    rfl

/-- What a successful extraction guarantees: N_LEVELS is the zero-based
range of the pressure-array length, N_PROF repeats the profile index,
and the pressure array is the PRES row of the file for this profile. -/
theorem extract_profile_some {f : NCFile} {i : Nat} {d : ProfileData}
    (h : extract_profile f i = some d) :
    d.nLevels = List.range d.pres.length ∧
    d.nProf = List.replicate d.pres.length i ∧
    d.pres = presRow f i := by
  unfold extract_profile at h
  by_cases hg : (f.openError = true ∨ i ∈ f.readErrors)
  · rw [if_pos hg] at h
    exact Option.noConfusion h
  rw [if_neg hg] at h
  cases h1 : scalarVar f.juld i with
  | none => simp [h1] at h
  | some juld =>
  simp only [h1] at h
  cases h2 : scalarVar f.latitude i with
  | none => simp [h2] at h
  | some lat =>
  simp only [h2] at h
  cases h3 : scalarVar f.longitude i with
  | none => simp [h3] at h
  | some lon =>
  simp only [h3] at h
  cases h4 : arrayVar f.pres i with
  | none => simp [h4] at h
  | some pres =>
  simp only [h4] at h
  cases h5 : arrayVar f.temp i with
  | none => simp [h5] at h
  | some temp =>
  simp only [h5] at h
  cases h6 : arrayVar f.psal i with
  | none => simp [h6] at h
  | some psal =>
  simp only [h6] at h
  cases h7 : arrayVar f.presAdj i with
  | none => simp [h7] at h
  | some presAdj =>
  simp only [h7] at h
  cases h8 : arrayVar f.tempAdj i with
  | none => simp [h8] at h
  | some tempAdj =>
  simp only [h8] at h
  cases h9 : arrayVar f.psalAdj i with
  | none => simp [h9] at h
  | some psalAdj =>
  simp only [h9] at h
  injection h with h
  subst h
  exact ⟨rfl, rfl, arrayVar_pres_eq h4⟩

/-- What a successful transform produces: the rows are built by index
over the N_LEVELS column (and the guard of equal column lengths held). -/
theorem transform_data_some {d : ProfileData} {rows : List ProfRow}
    (h : transform_data d = some rows) :
    rows = (List.range d.nLevels.length).map (fun i =>
      { n_prof := d.nProf.getD i 0
        n_levels := d.nLevels.getD i 0
        juld := d.juld
        latitude := d.latitude
        longitude := d.longitude
        pres := d.pres.getD i none
        temp := d.temp.getD i none
        psal := d.psal.getD i none
        pres_adjusted := d.presAdj.getD i none
        temp_adjusted := d.tempAdj.getD i none
        psal_adjusted := d.psalAdj.getD i none }) := by
  simp only [transform_data] at h
  split at h
  · exact (Option.some.inj h).symm
  · exact Option.noConfusion h

theorem range_map_getD (k : Nat) :
    (List.range k).map (fun j => (List.range k).getD j 0) = List.range k := by
  apply List.ext_getElem
  · simp
  · intro i h1 h2
    simp only [List.getElem_map, List.getElem_range]
    rw [List.getD_eq_getElem?_getD, List.getElem?_range (by simpa using h2)]
    rfl

/-- Rows contributed by a batch run never carry a SOURCE_FILE value that
was already in the processed set, because the dedup filter runs before
any extraction. -/
theorem flatMap_fileRows_filter_nil (raw : List NCFile) (rows : List Row) (F : String)
    (hF : F ∈ processed_files (some rows)) :
    ((etl_new_files raw (some rows)).flatMap fileRows).filter
      (fun r => decide (r.source_file = F)) = [] := by
  rw [List.filter_eq_nil_iff]
  intro r hr
  obtain ⟨f, hf, hname⟩ := mem_flatMap_fileRows_source hr
  have hnotin := (mem_etl_new_files hf).2
  intro hc
  have hc' : r.source_file = F := of_decide_eq_true hc
  exact hnotin (by rw [hname.symm.trans hc']; exact hF)

/-- A Consolidator run leaves the rows of any already-processed source
file exactly as they were. -/
theorem etl_sourceRows_eq (raw : List NCFile) (rows : List Row) (F : String)
    (hF : F ∈ processed_files (some rows)) :
    sourceRows F (etl_main raw (some rows)) = sourceRows F (some rows) := by
  rw [etl_main_some raw rows]
  unfold sourceRows
  simp only [Option.getD_some]
  rw [List.filter_append, flatMap_fileRows_filter_nil raw rows F hF, List.append_nil]

/-- The Loader either writes nothing or appends the full accumulation. -/
theorem insert_data_from_csv_cases (df db : List Row) :
    insert_data_from_csv (some df) db = db ∨
    insert_data_from_csv (some df) db = db ++ df := by
  simp only [insert_data_from_csv]
  by_cases hemp : ((df.map Row.source_file).dedup.filter
      (fun s => decide (¬ s ∈ (db.map Row.source_file).dedup))).isEmpty = true
  · left
    rw [if_pos hemp]
  · right
    rw [if_neg hemp]

/-- Normal form of one fault-free pipeline run. -/
theorem pipeline_run_eq (s : JobState) :
    pipeline_run s = { rawFiles := [], csv := etl_main s.rawFiles s.csv,
                       db := insert_data_from_csv (etl_main s.rawFiles s.csv) s.db } := by
  simp [pipeline_run, run_etl_and_load, db_conversion_run, noFaults]

/-- Test fixture: an initial durable state with two raw files and no
stores yet. -/
def jobState0 : JobState := { rawFiles := [fileA, fileC], csv := none, db := [] }

/-- Test fixture: the dict `extract_profile fileA 0` produces. -/
def dataA : ProfileData :=
  { juld := some 100, latitude := some 5, longitude := some 6
    pres := [some 1, some 2], temp := [some 7, some 8], psal := [some 9, some 10]
    presAdj := [some 1, some 2], tempAdj := [some 7, some 8], psalAdj := [some 9, some 10]
    nProf := [0, 0], nLevels := [0, 1] }

/-- Test fixture: the rows `transform_data dataA` produces. -/
def rowsA : List ProfRow :=
  [{ n_prof := 0, n_levels := 0, juld := some 100, latitude := some 5, longitude := some 6
     pres := some 1, temp := some 7, psal := some 9, pres_adjusted := some 1
     temp_adjusted := some 7, psal_adjusted := some 9 },
   { n_prof := 0, n_levels := 1, juld := some 100, latitude := some 5, longitude := some 6
     pres := some 2, temp := some 8, psal := some 10, pres_adjusted := some 2
     temp_adjusted := some 8, psal_adjusted := some 10 }]

/-- Test fixture: the dict `extract_profile fileMix 0` produces (its TEMP
row is shorter than its PRES row, so `transform_data` raises on it). -/
def dMix0 : ProfileData :=
  { juld := some 400, latitude := some 1, longitude := some 3
    pres := [some 20], temp := [], psal := [some 23]
    presAdj := [some 20], tempAdj := [some 25], psalAdj := [some 27]
    nProf := [0], nLevels := [0] }

/-- C1: the claim says that when the store already holds rows for A.bin
and the accumulation holds rows for A.bin and a new file C.bin, only the
C.bin rows are newly inserted and the A.bin row count in the store is
unchanged.  The Loader computes `df_new` but line 105 of db_conversion.py
appends the full accumulation `df`, so the A.bin row is inserted a second
time: starting from one A.bin row, the store ends with two. -/
theorem C1_loader_appends_full_accumulation :
    ((insert_data_from_csv (some [rowA, rowC]) [rowA]).filter
        (fun r => r.source_file = "A.bin")).length = 2 ∧
    ((insert_data_from_csv (some [rowA, rowC]) [rowA]).filter
        (fun r => r.source_file = "C.bin")).length = 1 := by
  decide

/-- C2 counterexample: the accumulation holds a C.bin row not yet in the
store and `df.to_sql` raises (a load transaction error).  The claim says
the job fails, a line is written to the error log and Cleanup does not
run.  The code catches the exception inside the Loader, which exits 0:
the job is reported successful, the error log is untouched, and Cleanup
runs and deletes the raw files. -/
theorem C2_counterexample_load_error_cleanup_runs :
    (fetch_and_update_job { rawFiles := [fileA], csv := some [rowC], db := [] } [] 0
        { etlCrashes := false, lockTimeout := false, insertFails := true }).2.2 = true ∧
    (fetch_and_update_job { rawFiles := [fileA], csv := some [rowC], db := [] } [] 0
        { etlCrashes := false, lockTimeout := false, insertFails := true }).2.1 = [] ∧
    (fetch_and_update_job { rawFiles := [fileA], csv := some [rowC], db := [] } [] 0
        { etlCrashes := false, lockTimeout := false, insertFails := true }).1.rawFiles = [] := by
  refine ⟨?_, ?_, ?_⟩ <;> decide

/-- C2 amended: a stage subprocess exiting nonzero — the ETL crashing, or
the Loader raising outside its internal try/except (a store-lock timeout
while opening the store / setting WAL mode) — fails the job, appends a
timestamped line to the persistent error log, and skips every later
stage including Cleanup (no raw file is deleted; on a lock timeout the
store is unchanged); the next tick then starts fresh.  A load transaction
error raised during the insert itself is instead caught inside the
Loader, which exits 0, so the job proceeds to Cleanup and is reported
successful (see the counterexample). -/
theorem C2_stage_failure_fails_job_and_skips_cleanup (s : JobState)
    (errLog : List (Nat × String)) (now : Nat) (fm : FaultModel)
    (h : fm.etlCrashes = true ∨ (fm.etlCrashes = false ∧ fm.lockTimeout = true)) :
    (fetch_and_update_job s errLog now fm).2.1 = errLog ++ [(now, "Job failed")] ∧
    (fetch_and_update_job s errLog now fm).2.2 = false ∧
    (fetch_and_update_job s errLog now fm).1.rawFiles = s.rawFiles ∧
    (fm.lockTimeout = true → (fetch_and_update_job s errLog now fm).1.db = s.db) := by
  rcases h with h | ⟨h1, h2⟩
  · simp [fetch_and_update_job, run_etl_and_load, h]
  · simp [fetch_and_update_job, run_etl_and_load, db_conversion_run, h1, h2]

/-- C2 witness: a lock timeout in the Load stage at a concrete state. -/
theorem C2_stage_failure_witness :
    (fetch_and_update_job jobState0 [] 7
        { etlCrashes := false, lockTimeout := true, insertFails := false }).2.1
      = [(7, "Job failed")] ∧
    (fetch_and_update_job jobState0 [] 7
        { etlCrashes := false, lockTimeout := true, insertFails := false }).2.2 = false ∧
    (fetch_and_update_job jobState0 [] 7
        { etlCrashes := false, lockTimeout := true, insertFails := false }).1.rawFiles
      = jobState0.rawFiles ∧
    (fetch_and_update_job jobState0 [] 7
        { etlCrashes := false, lockTimeout := true, insertFails := false }).1.db
      = jobState0.db := by
  obtain ⟨w1, w2, w3, w4⟩ := C2_stage_failure_fails_job_and_skips_cleanup jobState0 [] 7
    { etlCrashes := false, lockTimeout := true, insertFails := false } (Or.inr ⟨rfl, rfl⟩)
  exact ⟨w1, w2, w3, w4 rfl⟩

/-- C3: the pipeline is idempotent: the Consolidator leaves the CSV
untouched when the new-files set is empty, the Loader returns without
writing when every accumulation SOURCE_FILE is already in the store, and
a second fault-free pipeline run right after a first one leaves the
store row set unchanged. -/
theorem C3_pipeline_idempotent (s : JobState) (raw : List NCFile)
    (csv : Option (List Row)) (df db : List Row) :
    (etl_new_files raw csv = [] → etl_main raw csv = csv) ∧
    ((∀ r ∈ df, r.source_file ∈ db.map Row.source_file) →
      insert_data_from_csv (some df) db = db) ∧
    (pipeline_run (pipeline_run s)).db = (pipeline_run s).db := by
  refine ⟨?_, insert_data_from_csv_subset df db, ?_⟩
  · intro h
    unfold etl_main
    rw [h]
    rfl
  · rw [pipeline_run_eq s, pipeline_run_eq]
    exact insert_data_from_csv_idem (etl_main s.rawFiles s.csv) s.db

/-- C3 witness: concrete instances of all three parts. -/
theorem C3_pipeline_idempotent_witness :
    etl_main [] none = none ∧
    insert_data_from_csv (some [rowA]) [rowA] = [rowA] ∧
    (pipeline_run (pipeline_run jobState0)).db = (pipeline_run jobState0).db :=
  ⟨(C3_pipeline_idempotent jobState0 [] none [rowA] [rowA]).1 (by decide),
   (C3_pipeline_idempotent jobState0 [] none [rowA] [rowA]).2.1 (by decide),
   (C3_pipeline_idempotent jobState0 [] none [rowA] [rowA]).2.2⟩

/-- C4: the consolidation accumulation is append-only and monotonic with
respect to SOURCE_FILE: a run only appends to an existing accumulation
(never rewrites or removes rows), and for every source file already
present — in particular one that completed in a prior, partially failed
attempt — the rows carrying it afterwards are exactly the ones already
there, because the already-consolidated check filters the batch before
any extraction begins. -/
theorem C4_accumulation_monotonic (raw : List NCFile) (rows : List Row) :
    (∃ extra, etl_main raw (some rows) = some (rows ++ extra)) ∧
    (∀ F, F ∈ processed_files (some rows) →
      sourceRows F (etl_main raw (some rows)) = sourceRows F (some rows)) := by
  constructor
  · exact ⟨_, etl_main_some raw rows⟩
  · intro F hF
    exact etl_sourceRows_eq raw rows F hF

/-- C4 witness: a batch containing a file named A.bin while an A.bin row
is already consolidated leaves the A.bin rows untouched. -/
theorem C4_accumulation_monotonic_witness :
    sourceRows "A.bin" (etl_main [fileA, fileC] (some [rowA]))
      = sourceRows "A.bin" (some [rowA]) :=
  (C4_accumulation_monotonic [fileA, fileC] [rowA]).2 "A.bin" (by decide)

/-- C6: a failing file does not abort the batch: every file that the
dedup filter selects for this batch — whatever happens to the other
files of the batch, e.g. a file whose open raises — contributes exactly
its extracted rows to the accumulation, which therefore contains them
after the run. -/
theorem C6_partial_failure_isolation (raw : List NCFile) (rows : List Row)
    (g : NCFile) (hg : g ∈ etl_new_files raw (some rows)) :
    ∃ l1 l2, etl_main raw (some rows) = some (l1 ++ fileRows g ++ l2) := by
  obtain ⟨s, t, hst⟩ := List.append_of_mem hg
  refine ⟨rows ++ s.flatMap fileRows, t.flatMap fileRows, ?_⟩
  rw [etl_main_some raw rows, hst]
  simp [List.flatMap_append, List.flatMap_cons, List.append_assoc]

/-- C6 witness: in the batch A.bin, B.bin, C.bin where B.bin fails to
open, the rows of C.bin (and of A.bin, by symmetry) are present in the
accumulation after the run. -/
theorem C6_partial_failure_isolation_witness :
    ∃ l1 l2, etl_main [fileA, fileB, fileC] (some [])
      = some (l1 ++ fileRows fileC ++ l2) :=
  C6_partial_failure_isolation [fileA, fileB, fileC] [] fileC (by decide)

/-- C7: with the configuration passed to the scheduler in backend/app.py
(max_instances = 1), a tick that fires while a job instance is running
is a no-op (skipped, not queued), the running-instance count never
exceeds one, and firing two further ticks while the job started by a
first tick is still running yields exactly one execution. -/
theorem C7_scheduler_no_overlap (s : SchedState) (h : 1 ≤ s.runningJobs) :
    sched_tick appSchedulerConfig s = s ∧
    (∀ t : SchedState, t.runningJobs ≤ 1 →
      (sched_tick appSchedulerConfig t).runningJobs ≤ 1) ∧
    (sched_tick appSchedulerConfig (sched_tick appSchedulerConfig
        (sched_tick appSchedulerConfig
          { runningJobs := 0, executions := 0 }))).executions = 1 := by
  refine ⟨?_, ?_, by decide⟩
  · simp only [sched_tick, appSchedulerConfig]
    rw [if_neg (by omega)]
  · intro t ht
    simp only [sched_tick, appSchedulerConfig]
    split
    · simp
      omega
    · exact ht

/-- C7 witness: a tick during a running job changes nothing. -/
theorem C7_scheduler_no_overlap_witness :
    sched_tick appSchedulerConfig { runningJobs := 1, executions := 1 }
      = { runningJobs := 1, executions := 1 } ∧
    (sched_tick appSchedulerConfig (sched_tick appSchedulerConfig
        (sched_tick appSchedulerConfig
          { runningJobs := 0, executions := 0 }))).executions = 1 := by
  obtain ⟨w1, _, w3⟩ := C7_scheduler_no_overlap { runningJobs := 1, executions := 1 }
    (by decide)
  exact ⟨w1, w3⟩

/-- C9: once any row for a source file is in the accumulation (e.g.
after that file failed part-way through its profile loop), every later
run classifies it as already consolidated: no batch file with that name
is selected again, the accumulation rows for that source stay exactly
the old partial ones, and after a load the store rows for that source
come only from those old partial rows (the remaining profiles are never
extracted, consolidated, or loaded). -/
theorem C9_partial_file_never_reprocessed (raw : List NCFile) (csvRows db : List Row)
    (F : String) (h : F ∈ processed_files (some csvRows)) :
    (∀ g ∈ etl_new_files raw (some csvRows), g.name ≠ F) ∧
    sourceRows F (etl_main raw (some csvRows)) = sourceRows F (some csvRows) ∧
    ((insert_data_from_csv (etl_main raw (some csvRows)) db).filter
        (fun r => r.source_file = F) = db.filter (fun r => r.source_file = F) ∨
      (insert_data_from_csv (etl_main raw (some csvRows)) db).filter
          (fun r => r.source_file = F)
        = db.filter (fun r => r.source_file = F)
            ++ csvRows.filter (fun r => r.source_file = F)) := by
  refine ⟨?_, etl_sourceRows_eq raw csvRows F h, ?_⟩
  · intro g hg hc
    exact (mem_etl_new_files hg).2 (by rw [hc]; exact h)
  · rw [etl_main_some raw csvRows]
    rcases insert_data_from_csv_cases
        (csvRows ++ (etl_new_files raw (some csvRows)).flatMap fileRows) db with
      hcase | hcase
    · left
      rw [hcase]
    · right
      rw [hcase, List.filter_append, List.filter_append,
        flatMap_fileRows_filter_nil raw csvRows F h, List.append_nil]

/-- C9 witness: with a partial C.bin row already consolidated, a later
run over a raw directory still containing C.bin leaves the C.bin
accumulation rows unchanged. -/
theorem C9_partial_file_never_reprocessed_witness :
    sourceRows "C.bin" (etl_main [fileC] (some [rowC]))
      = sourceRows "C.bin" (some [rowC]) :=
  (C9_partial_file_never_reprocessed [fileC] [rowC] [] "C.bin" (by decide)).2.1

/-- C5: for the rows a successfully transformed profile contributes, the
N_LEVELS column is exactly the zero-based range 0..k-1 where k is the
length of that profile PRES row in the file, every N_PROF value is the
profile index, and a profile with no extractable per-level arrays at all
transforms to zero rows without raising. -/
theorem C5_level_count_consistency (f : NCFile) (i : Nat) (d : ProfileData)
    (rows : List ProfRow) :
    (extract_profile f i = some d → transform_data d = some rows →
      rows.map ProfRow.n_levels = List.range (presRow f i).length ∧
      ∀ r ∈ rows, r.n_prof = i) ∧
    (extract_profile f i = some d → d.pres = [] → d.temp = [] → d.psal = [] →
      d.presAdj = [] → d.tempAdj = [] → d.psalAdj = [] →
      transform_data d = some []) := by
  constructor
  · intro hx ht
    obtain ⟨hnl, hnp, hpr⟩ := extract_profile_some hx
    have hrows := transform_data_some ht
    subst hrows
    rw [List.map_map]
    constructor
    · show (List.range d.nLevels.length).map (fun j => d.nLevels.getD j 0)
        = List.range (presRow f i).length
      rw [← hpr, hnl, List.length_range]
      exact range_map_getD d.pres.length
    · intro r hr
      obtain ⟨j, hj, rfl⟩ := List.mem_map.mp hr
      show d.nProf.getD j 0 = i
      have hjk : j < d.pres.length := by
        have hj' := List.mem_range.mp hj
        rwa [hnl, List.length_range] at hj'
      rw [hnp, List.getD_eq_getElem?_getD, List.getElem?_replicate]
      simp [hjk]
  · intro hx h1 h2 h3 h4 h5 h6
    obtain ⟨hnl, hnp, -⟩ := extract_profile_some hx
    simp [transform_data, hnl, hnp, h1, h2, h3, h4, h5, h6]

/-- C5 witness: the two rows of the only profile of fileA carry
N_LEVELS 0 and 1, matching the length-2 PRES row. -/
theorem C5_level_count_consistency_witness :
    rowsA.map ProfRow.n_levels = List.range (presRow fileA 0).length :=
  ((C5_level_count_consistency fileA 0 dataA rowsA).1 (by decide) (by decide)).1

/-- C8 counterexample: at a file with neither JULD nor any 2D measurement
variable, zero profiles are detected and zero rows extracted, but no
warning-level line is logged (only info-level lines), contradicting the
claim that a warning is emitted. -/
theorem C8_counterexample_no_warning_emitted :
    detect_n_prof fileEmpty = 0 ∧ fileRows fileEmpty = [] ∧
    ∀ e ∈ fileLogEvents fileEmpty, ¬ e.level = LogLevel.warning := by
  refine ⟨by decide, by decide, by decide⟩

/-- C8 amended: the number of profiles extracted from a file is the
length of the JULD array when present, otherwise the leading dimension
of the first available 2D measurement array (in the order PRES, TEMP,
PSAL, PRES_ADJUSTED, TEMP_ADJUSTED, PSAL_ADJUSTED), and when neither is
present zero profiles are extracted — in that case only info-level
messages are logged for the file, not a warning. -/
theorem C8_profile_count_determination (f : NCFile) :
    (∀ arr, f.juld = some arr → detect_n_prof f = arr.length) ∧
    (∀ m, f.juld = none → f.pres = some m → detect_n_prof f = m.length) ∧
    (∀ m, f.juld = none → f.pres = none → f.temp = some m →
      detect_n_prof f = m.length) ∧
    (∀ m, f.juld = none → f.pres = none → f.temp = none → f.psal = some m →
      detect_n_prof f = m.length) ∧
    (∀ m, f.juld = none → f.pres = none → f.temp = none → f.psal = none →
      f.presAdj = some m → detect_n_prof f = m.length) ∧
    (∀ m, f.juld = none → f.pres = none → f.temp = none → f.psal = none →
      f.presAdj = none → f.tempAdj = some m → detect_n_prof f = m.length) ∧
    (∀ m, f.juld = none → f.pres = none → f.temp = none → f.psal = none →
      f.presAdj = none → f.tempAdj = none → f.psalAdj = some m →
      detect_n_prof f = m.length) ∧
    (f.openError = false → f.juld = none → f.pres = none → f.temp = none →
      f.psal = none → f.presAdj = none → f.tempAdj = none → f.psalAdj = none →
      detect_n_prof f = 0 ∧ fileRows f = [] ∧
      ∀ e ∈ fileLogEvents f, ¬ e.level = LogLevel.warning) := by
  refine ⟨?_, ?_, ?_, ?_, ?_, ?_, ?_, ?_⟩
  · intro arr h1
    simp [detect_n_prof, h1]
  · intro m h1 h2
    simp [detect_n_prof, h1, h2]
  · intro m h1 h2 h3
    simp [detect_n_prof, h1, h2, h3]
  · intro m h1 h2 h3 h4
    simp [detect_n_prof, h1, h2, h3, h4]
  · intro m h1 h2 h3 h4 h5
    simp [detect_n_prof, h1, h2, h3, h4, h5]
  · intro m h1 h2 h3 h4 h5 h6
    simp [detect_n_prof, h1, h2, h3, h4, h5, h6]
  · intro m h1 h2 h3 h4 h5 h6 h7
    simp [detect_n_prof, h1, h2, h3, h4, h5, h6, h7]
  · intro h0 h1 h2 h3 h4 h5 h6 h7
    have hdet : detect_n_prof f = 0 := by
      simp [detect_n_prof, h1, h2, h3, h4, h5, h6, h7]
    refine ⟨hdet, ?_, ?_⟩
    · simp [fileRows, h0, hdet, profilesRowsList]
    · simp [fileLogEvents, h0, hdet, profileLogEvents]

/-- C8 witness: concrete instances of the JULD case and of the
no-variables case. -/
theorem C8_profile_count_determination_witness :
    detect_n_prof fileA = 1 ∧ detect_n_prof fileEmpty = 0 ∧ fileRows fileEmpty = [] :=
  ⟨(C8_profile_count_determination fileA).1 [some 100] rfl,
   ((C8_profile_count_determination fileEmpty).2.2.2.2.2.2.2
      rfl rfl rfl rfl rfl rfl rfl rfl).1,
   ((C8_profile_count_determination fileEmpty).2.2.2.2.2.2.2
      rfl rfl rfl rfl rfl rfl rfl rfl).2.1⟩

/-- C10: a raise inside `transform_data` (row construction) for one
profile aborts processing of all remaining profiles of the same file
(nothing further is appended for that file), while an extraction read
error is confined to the single profile (the rest of the file is still
processed); unequal per-level array lengths within one profile are such
a row-construction failure.  Concretely, fileMix loses its healthy
profile 1 because profile 0 fails in the transform, although profile 1
alone would contribute a row. -/
theorem C10_transform_failure_aborts_file (f : NCFile) (i : Nat) (rest : List Nat)
    (d : ProfileData) :
    (extract_profile f i = some d → transform_data d = none →
      profilesRowsList f (i :: rest) = []) ∧
    (extract_profile f i = none →
      profilesRowsList f (i :: rest) = profilesRowsList f rest) ∧
    (d.temp.length ≠ d.nLevels.length → transform_data d = none) ∧
    fileRows fileMix = [] ∧ ¬ profilesRowsList fileMix [1] = [] := by
  refine ⟨?_, ?_, ?_, by decide, by decide⟩
  · intro hx ht
    unfold profilesRowsList
    simp [hx, ht]
  · intro hx
    simp only [profilesRowsList, hx]
  · intro hne
    simp only [transform_data]
    exact if_neg (fun hand => hne hand.2.2.1)

/-- C10 witness: the transform failure on profile 0 of fileMix wipes the
whole file contribution, including the rows its profile 1 would give. -/
theorem C10_transform_failure_aborts_file_witness :
    profilesRowsList fileMix [0, 1] = [] :=
  (C10_transform_failure_aborts_file fileMix 0 [1] dMix0).1 (by decide) (by decide)
